import Mathlib

/-
Verification of the configuration loader in `src/backend/app/config.py`.

The source declares a pydantic-v1 `BaseSettings` subclass

    class Settings(BaseSettings):
        PROJECT_NAME: str = "PhyRISK – AI-Driven Mental Health Risk Intelligence"
        DATABASE_URL: str = "sqlite:///./dev.db"
        JWT_SECRET_KEY: str = "CHANGE_ME"
        JWT_ALGORITHM: str = "HS256"
        ACCESS_TOKEN_EXPIRE_MINUTES: int = 60
        class Config:
            env_file = ".env"

and instantiates it once: `settings = Settings()`.

The embedding below follows pydantic v1 semantics for this class:
`Settings(**kwargs)` builds its values from, in precedence order, the
explicit keyword arguments, the merged environment dict
`{**dotenv_vars, **os.environ}` (process variables shadow the env-file
entries, keys lower-cased because `Config.case_sensitive` defaults to
`False`), and the class-body defaults.  The integer field is coerced with
Python `int()`; a value it rejects raises `ValidationError`, the only
error construction can raise.  `Config` sets neither
`allow_mutation = False` nor `validate_assignment = True`, so attribute
assignment on the constructed object stores the assigned value.

Environments and env files are modelled as association lists standing for
Python dicts (keys distinct within one list); a missing env file is
`Option.none` and, as in python-dotenv, contributes nothing.  `int()` is
modelled on ASCII inputs: surrounding whitespace stripped, an optional
sign, a non-empty digit run with single underscores allowed between
digits.  Unicode digits and exotic whitespace are outside the modelled
fragment; no claim depends on them.
-/

/-- The configuration record: the five typed fields of class `Settings`
in `src/backend/app/config.py`. -/
structure Settings where
  PROJECT_NAME : String
  DATABASE_URL : String
  JWT_SECRET_KEY : String
  JWT_ALGORITHM : String
  ACCESS_TOKEN_EXPIRE_MINUTES : Int
  deriving DecidableEq, Repr

/-- The literal defaults of the class body of `Settings`. -/
def defaultSettings : Settings where
  PROJECT_NAME := "PhyRISK – AI-Driven Mental Health Risk Intelligence"
  DATABASE_URL := "sqlite:///./dev.db"
  JWT_SECRET_KEY := "CHANGE_ME"
  JWT_ALGORITHM := "HS256"
  ACCESS_TOKEN_EXPIRE_MINUTES := 60

/-- An environment (process environment or parsed env file): the items of a
Python string dict, keys distinct. -/
abbrev Env := List (String × String)

/-- ASCII lower-casing of one character (Python `str.lower()` restricted to
the ASCII fragment the source's keys live in). -/
def lowerChar (c : Char) : Char :=
  if 65 ≤ c.toNat ∧ c.toNat ≤ 90 then Char.ofNat (c.toNat + 32) else c

/-- ASCII lower-casing of a string. -/
def lowerString (s : String) : String := ⟨s.data.map lowerChar⟩

/-- Lower-case every key, as pydantic v1 does to both `os.environ` and the
dotenv dict when `Config.case_sensitive` is `False` (the default, and the
source's `Config` does not set it). -/
def lowerKeys (e : Env) : Env := e.map fun p => (lowerString p.1, p.2)

/-- The merged variable dict `{**dotenv_vars, **os.environ}` built by pydantic
v1's `EnvSettingsSource`: process variables shadow env-file entries (lookup
takes the first hit, and the process entries come first).  A missing env file
(`none`) contributes nothing, exactly like an empty dict. -/
def envVars (envFile : Option Env) (environ : Env) : Env :=
  lowerKeys environ ++ lowerKeys (envFile.getD [])

/-- Tail of a Python decimal literal after its first digit: digits with single
underscores allowed only between digits. -/
def pyIntTail : List Char → Bool
  | [] => true
  | '_' :: c :: rest => c.isDigit && pyIntTail rest
  | c :: rest => c.isDigit && pyIntTail rest

/-- Numeric value of a digit run, skipping underscores. -/
def pyIntValue (cs : List Char) : Nat :=
  cs.foldl (fun a c => if c = '_' then a else 10 * a + (c.toNat - 48)) 0

/-- An unsigned Python decimal literal: a digit followed by `pyIntTail`. -/
def parseUnsigned : List Char → Option Nat
  | [] => none
  | c :: rest =>
      if c.isDigit && pyIntTail rest then some (pyIntValue (c :: rest)) else none

/-- Whitespace stripped by Python `str.strip()` inside `int()`, on the ASCII
fragment. -/
def isPyWs (c : Char) : Bool :=
  c = ' ' || c = '\t' || c = '\n' || c = '\r' || c = '\x0b' || c = '\x0c'

/-- Strip leading and trailing whitespace from a character list. -/
def stripChars (cs : List Char) : List Char :=
  ((cs.dropWhile isPyWs).reverse.dropWhile isPyWs).reverse

/-- Models Python `int()` on an ASCII string, as invoked by pydantic v1's
`int_validator` on the raw string resolved for `ACCESS_TOKEN_EXPIRE_MINUTES`:
strip surrounding whitespace, optional single sign, non-empty digit run. -/
def parsePyInt (s : String) : Option Int :=
  match stripChars s.data with
  | '+' :: rest => (parseUnsigned rest).map Int.ofNat
  | '-' :: rest => (parseUnsigned rest).map fun n => -(n : Int)
  | cs => (parseUnsigned cs).map Int.ofNat

/-- Explicit keyword arguments of `Settings(**kwargs)`, each an optional raw
string fed to the same per-field validation as environment values. -/
structure Kwargs where
  PROJECT_NAME : Option String := none
  DATABASE_URL : Option String := none
  JWT_SECRET_KEY : Option String := none
  JWT_ALGORITHM : Option String := none
  ACCESS_TOKEN_EXPIRE_MINUTES : Option String := none
  deriving DecidableEq, Repr

/-- `Settings()` as in the source's module-level `settings = Settings()`. -/
def noKwargs : Kwargs := {}

/-- The one kind of error `Settings(...)` can raise: pydantic's
`ValidationError`, tagged with the offending field. -/
inductive BuildError where
  | validationError (field : String)
  deriving DecidableEq, Repr

/-- First-hit resolution of one field's raw value: the explicit keyword
argument if supplied, else the merged environment dict under the lower-cased
field name. -/
def rawValue (kw : Option String) (vars : Env) (fieldName : String) : Option String :=
  match kw with
  | some v => some v
  | none => vars.lookup (lowerString fieldName)

/-- Embeds construction `Settings(**kw)` under a given optional env file and
process environment: resolve each field's raw value (keyword argument, then
merged environment dict), fall back to the class-body default when absent, and
coerce the integer field with `parsePyInt`, failing with `ValidationError`
when coercion fails — string fields accept any string. -/
def buildSettings (kw : Kwargs) (envFile : Option Env) (environ : Env) :
    Except BuildError Settings :=
  let vars := envVars envFile environ
  let pn := (rawValue kw.PROJECT_NAME vars "PROJECT_NAME").getD
    "PhyRISK – AI-Driven Mental Health Risk Intelligence"
  let db := (rawValue kw.DATABASE_URL vars "DATABASE_URL").getD "sqlite:///./dev.db"
  let sk := (rawValue kw.JWT_SECRET_KEY vars "JWT_SECRET_KEY").getD "CHANGE_ME"
  let alg := (rawValue kw.JWT_ALGORITHM vars "JWT_ALGORITHM").getD "HS256"
  match rawValue kw.ACCESS_TOKEN_EXPIRE_MINUTES vars "ACCESS_TOKEN_EXPIRE_MINUTES" with
  | none =>
      .ok { PROJECT_NAME := pn, DATABASE_URL := db, JWT_SECRET_KEY := sk,
            JWT_ALGORITHM := alg, ACCESS_TOKEN_EXPIRE_MINUTES := 60 }
  | some raw =>
      match parsePyInt raw with
      | none => .error (.validationError "ACCESS_TOKEN_EXPIRE_MINUTES")
      | some n =>
          .ok { PROJECT_NAME := pn, DATABASE_URL := db, JWT_SECRET_KEY := sk,
                JWT_ALGORITHM := alg, ACCESS_TOKEN_EXPIRE_MINUTES := n }

/-- Raw-value resolution in the order §4.1 of the spec states it — explicit
value, then the environment FILE, then the process environment — written from
the spec's words to compare against the source's `rawValue`, whose merged dict
gives the process environment precedence instead. -/
def rawValueSpecOrder (kw : Option String) (envFile : Option Env) (environ : Env)
    (fieldName : String) : Option String :=
  match kw with
  | some v => some v
  | none =>
      ((lowerKeys (envFile.getD [])).lookup (lowerString fieldName)).or
        ((lowerKeys environ).lookup (lowerString fieldName))

/-- Construction following the spec's stated per-field source order (file
before process environment); compare `buildSettings`. -/
def buildSettingsSpecOrder (kw : Kwargs) (envFile : Option Env) (environ : Env) :
    Except BuildError Settings :=
  let pn := (rawValueSpecOrder kw.PROJECT_NAME envFile environ "PROJECT_NAME").getD
    "PhyRISK – AI-Driven Mental Health Risk Intelligence"
  let db := (rawValueSpecOrder kw.DATABASE_URL envFile environ "DATABASE_URL").getD
    "sqlite:///./dev.db"
  let sk := (rawValueSpecOrder kw.JWT_SECRET_KEY envFile environ "JWT_SECRET_KEY").getD
    "CHANGE_ME"
  let alg := (rawValueSpecOrder kw.JWT_ALGORITHM envFile environ "JWT_ALGORITHM").getD
    "HS256"
  match rawValueSpecOrder kw.ACCESS_TOKEN_EXPIRE_MINUTES envFile environ
      "ACCESS_TOKEN_EXPIRE_MINUTES" with
  | none =>
      .ok { PROJECT_NAME := pn, DATABASE_URL := db, JWT_SECRET_KEY := sk,
            JWT_ALGORITHM := alg, ACCESS_TOKEN_EXPIRE_MINUTES := 60 }
  | some raw =>
      match parsePyInt raw with
      | none => .error (.validationError "ACCESS_TOKEN_EXPIRE_MINUTES")
      | some n =>
          .ok { PROJECT_NAME := pn, DATABASE_URL := db, JWT_SECRET_KEY := sk,
                JWT_ALGORITHM := alg, ACCESS_TOKEN_EXPIRE_MINUTES := n }

/-- Models attribute assignment `settings.PROJECT_NAME = v` in state-passing
form.  Pydantic v1's `BaseModel.__setattr__` stores the assigned value, since
the source's `Config` sets neither `allow_mutation = False` nor
`validate_assignment = True`. -/
def setPROJECT_NAME (s : Settings) (v : String) : Settings := { s with PROJECT_NAME := v }

/-- Attribute assignment `settings.DATABASE_URL = v`, as `setPROJECT_NAME`. -/
def setDATABASE_URL (s : Settings) (v : String) : Settings := { s with DATABASE_URL := v }

/-- Attribute assignment `settings.JWT_SECRET_KEY = v`, as `setPROJECT_NAME`. -/
def setJWT_SECRET_KEY (s : Settings) (v : String) : Settings := { s with JWT_SECRET_KEY := v }

/-- Attribute assignment `settings.JWT_ALGORITHM = v`, as `setPROJECT_NAME`. -/
def setJWT_ALGORITHM (s : Settings) (v : String) : Settings := { s with JWT_ALGORITHM := v }

/-- Attribute assignment `settings.ACCESS_TOKEN_EXPIRE_MINUTES = n` (an
integer value), as `setPROJECT_NAME`. -/
def setACCESS_TOKEN_EXPIRE_MINUTES (s : Settings) (n : Int) : Settings :=
  { s with ACCESS_TOKEN_EXPIRE_MINUTES := n }

instance : DecidableEq (Except BuildError Settings) := fun a b =>
  match a, b with
  | .ok x, .ok y =>
      if h : x = y then .isTrue (by rw [h]) else .isFalse (by simp [h])
  | .ok _, .error _ => .isFalse (by simp)
  | .error _, .ok _ => .isFalse (by simp)
  | .error x, .error y =>
      if h : x = y then .isTrue (by rw [h]) else .isFalse (by simp [h])

/-- C1: with no env file and none of the five variables set, every field is
its literal default. -/
theorem C1_defaults_when_unset (environ : Env)
    (h1 : (envVars none environ).lookup "project_name" = none)
    (h2 : (envVars none environ).lookup "database_url" = none)
    (h3 : (envVars none environ).lookup "jwt_secret_key" = none)
    (h4 : (envVars none environ).lookup "access_token_expire_minutes" = none)
    (h5 : (envVars none environ).lookup "jwt_algorithm" = none) :
    buildSettings noKwargs none environ = .ok defaultSettings := by
  simp only [buildSettings, rawValue, noKwargs]
  rw [show lowerString "PROJECT_NAME" = "project_name" from rfl,
    show lowerString "DATABASE_URL" = "database_url" from rfl,
    show lowerString "JWT_SECRET_KEY" = "jwt_secret_key" from rfl,
    show lowerString "JWT_ALGORITHM" = "jwt_algorithm" from rfl,
    show lowerString "ACCESS_TOKEN_EXPIRE_MINUTES" = "access_token_expire_minutes" from rfl,
    h1, h2, h3, h4, h5]
  rfl

/-- Witness for C1 at the empty environment. -/
theorem C1_defaults_when_unset_witness :
    buildSettings noKwargs none [] = .ok defaultSettings :=
  C1_defaults_when_unset [] rfl rfl rfl rfl rfl

/-- C2: with the env file setting ACCESS_TOKEN_EXPIRE_MINUTES=30 and the
process environment setting it to 45, the process variable wins: the
constructed record carries 45. -/
theorem C2_environ_beats_env_file :
    buildSettings noKwargs (some [("ACCESS_TOKEN_EXPIRE_MINUTES", "30")])
        [("ACCESS_TOKEN_EXPIRE_MINUTES", "45")] =
      .ok { defaultSettings with ACCESS_TOKEN_EXPIRE_MINUTES := 45 } := by
  decide

/-- Looking a key up in the concatenation of two association lists takes the
first list's binding when it has one. -/
theorem lookupAppend (k : String) (a b : Env) :
    (a ++ b).lookup k = ((a.lookup k).or (b.lookup k)) := by
  induction a with
  | nil => simp [List.lookup, Option.or]
  | cons p rest ih =>
      obtain ⟨pk, pv⟩ := p
      cases h : (k == pk) <;> simp [List.lookup, h, ih, Option.or]

/-- C3 counterexample: with the env file setting the expiry to 30 and the
process environment setting it to 45, the spec's stated first-hit order (file
before process environment) would yield 30, while the code yields 45. -/
theorem C3_order_counterexample :
    buildSettings noKwargs (some [("ACCESS_TOKEN_EXPIRE_MINUTES", "30")])
        [("ACCESS_TOKEN_EXPIRE_MINUTES", "45")] =
      .ok { defaultSettings with ACCESS_TOKEN_EXPIRE_MINUTES := 45 } ∧
    buildSettingsSpecOrder noKwargs (some [("ACCESS_TOKEN_EXPIRE_MINUTES", "30")])
        [("ACCESS_TOKEN_EXPIRE_MINUTES", "45")] =
      .ok { defaultSettings with ACCESS_TOKEN_EXPIRE_MINUTES := 30 } := by
  constructor <;> decide

/-- C3 (amended): each field's raw value is resolved first-hit in the order
(a) explicit value, (b) process environment, (c) environment file, (d) absent
(so the static default applies). -/
theorem C3_resolution_order (kw : Option String) (envFile : Option Env)
    (environ : Env) (name v : String) :
    (kw = some v → rawValue kw (envVars envFile environ) name = some v) ∧
    (kw = none → (lowerKeys environ).lookup (lowerString name) = some v →
      rawValue kw (envVars envFile environ) name = some v) ∧
    (kw = none → (lowerKeys environ).lookup (lowerString name) = none →
      (lowerKeys (envFile.getD [])).lookup (lowerString name) = some v →
      rawValue kw (envVars envFile environ) name = some v) ∧
    (kw = none → (lowerKeys environ).lookup (lowerString name) = none →
      (lowerKeys (envFile.getD [])).lookup (lowerString name) = none →
      rawValue kw (envVars envFile environ) name = none) := by
  refine ⟨fun hkw => ?_, fun hkw h => ?_, fun hkw h₁ h₂ => ?_, fun hkw h₁ h₂ => ?_⟩ <;>
    subst hkw <;> simp only [rawValue, envVars, lookupAppend]
  · rw [h]; rfl
  · rw [h₁, h₂]; rfl
  · rw [h₁, h₂]; rfl

/-- Witness for C3's amended resolution order: the process environment's 45
beats the env file's 30 for the expiry field. -/
theorem C3_resolution_order_witness :
    rawValue none (envVars (some [("ACCESS_TOKEN_EXPIRE_MINUTES", "30")])
        [("ACCESS_TOKEN_EXPIRE_MINUTES", "45")]) "ACCESS_TOKEN_EXPIRE_MINUTES" =
      some "45" :=
  (C3_resolution_order none (some [("ACCESS_TOKEN_EXPIRE_MINUTES", "30")])
      [("ACCESS_TOKEN_EXPIRE_MINUTES", "45")] "ACCESS_TOKEN_EXPIRE_MINUTES" "45").2.1
    rfl (by decide)

/-- C4: a construction error is always the ValidationError on the expiry
field, happens exactly when its resolved raw value fails integer coercion,
and conversely an unparseable resolved expiry value always fails
construction. -/
theorem C4_validation_is_only_error (kw : Kwargs) (envFile : Option Env) (environ : Env) :
    (∀ e, buildSettings kw envFile environ = .error e →
      e = .validationError "ACCESS_TOKEN_EXPIRE_MINUTES" ∧
      ∃ raw, rawValue kw.ACCESS_TOKEN_EXPIRE_MINUTES (envVars envFile environ)
          "ACCESS_TOKEN_EXPIRE_MINUTES" = some raw ∧ parsePyInt raw = none) ∧
    (∀ raw, rawValue kw.ACCESS_TOKEN_EXPIRE_MINUTES (envVars envFile environ)
        "ACCESS_TOKEN_EXPIRE_MINUTES" = some raw → parsePyInt raw = none →
      buildSettings kw envFile environ =
        .error (.validationError "ACCESS_TOKEN_EXPIRE_MINUTES")) := by
  constructor
  · intro e he
    simp only [buildSettings] at he
    split at he
    · exact Except.noConfusion he
    · next raw hraw =>
        split at he
        · next hp =>
            injection he with h
            exact ⟨h.symm, raw, hraw, hp⟩
        · exact Except.noConfusion he
  · intro raw hraw hp
    simp only [buildSettings, hraw, hp]

/-- Witness for C4 at the literal input of §8: ACCESS_TOKEN_EXPIRE_MINUTES set
to "notanumber" in the process environment fails construction with the
ValidationError. -/
theorem C4_validation_is_only_error_witness :
    buildSettings noKwargs none [("ACCESS_TOKEN_EXPIRE_MINUTES", "notanumber")] =
      .error (.validationError "ACCESS_TOKEN_EXPIRE_MINUTES") :=
  (C4_validation_is_only_error noKwargs none
      [("ACCESS_TOKEN_EXPIRE_MINUTES", "notanumber")]).2 "notanumber" rfl (by decide)

/-- C5 counterexample: even with the env file wholly absent, construction
fails when the process environment's expiry value does not parse as an
integer, so absence of the file alone does not guarantee success. -/
theorem C5_missing_file_counterexample :
    buildSettings noKwargs none [("ACCESS_TOKEN_EXPIRE_MINUTES", "NaN")] =
      .error (.validationError "ACCESS_TOKEN_EXPIRE_MINUTES") := by
  decide

/-- C5 (amended): a missing env file is itself never an error — construction
with the file absent coincides with construction from an empty file, and
succeeds whenever the process environment's expiry value, if present at all,
parses as an integer; each field falls back to the process environment or the
static default. -/
theorem C5_missing_file_falls_through (kw : Kwargs) (environ : Env)
    (hint : ∀ raw, rawValue kw.ACCESS_TOKEN_EXPIRE_MINUTES (envVars none environ)
        "ACCESS_TOKEN_EXPIRE_MINUTES" = some raw → (parsePyInt raw).isSome) :
    buildSettings kw none environ = buildSettings kw (some []) environ ∧
    ∃ s, buildSettings kw none environ = .ok s := by
  refine ⟨rfl, ?_⟩
  simp only [buildSettings]
  split
  · exact ⟨_, rfl⟩
  · next raw hraw =>
      split
      · next hp =>
          have := hint raw hraw
          rw [hp] at this
          exact absurd this (by simp)
      · exact ⟨_, rfl⟩

/-- Witness for C5 at an environment that sets only a parseable expiry. -/
theorem C5_missing_file_falls_through_witness :
    buildSettings noKwargs none [("ACCESS_TOKEN_EXPIRE_MINUTES", "45")] =
      buildSettings noKwargs (some []) [("ACCESS_TOKEN_EXPIRE_MINUTES", "45")] ∧
    ∃ s, buildSettings noKwargs none [("ACCESS_TOKEN_EXPIRE_MINUTES", "45")] = .ok s :=
  C5_missing_file_falls_through noKwargs [("ACCESS_TOKEN_EXPIRE_MINUTES", "45")]
    (fun raw h => by
      have h45 : raw = "45" := (Option.some.inj h).symm
      subst h45; decide)

/-- C6: setting exactly one overriding variable changes exactly its own field
and leaves the other four at their defaults (for the integer field, provided
the supplied value parses). -/
theorem C6_single_override_frame :
    (∀ v, buildSettings noKwargs none [("PROJECT_NAME", v)] =
      .ok { defaultSettings with PROJECT_NAME := v }) ∧
    (∀ v, buildSettings noKwargs none [("DATABASE_URL", v)] =
      .ok { defaultSettings with DATABASE_URL := v }) ∧
    (∀ v, buildSettings noKwargs none [("JWT_SECRET_KEY", v)] =
      .ok { defaultSettings with JWT_SECRET_KEY := v }) ∧
    (∀ v, buildSettings noKwargs none [("JWT_ALGORITHM", v)] =
      .ok { defaultSettings with JWT_ALGORITHM := v }) ∧
    (∀ v n, parsePyInt v = some n →
      buildSettings noKwargs none [("ACCESS_TOKEN_EXPIRE_MINUTES", v)] =
        .ok { defaultSettings with ACCESS_TOKEN_EXPIRE_MINUTES := n }) := by
  refine ⟨fun v => rfl, fun v => rfl, fun v => rfl, fun v => rfl, fun v n h => ?_⟩
  have hraw : rawValue noKwargs.ACCESS_TOKEN_EXPIRE_MINUTES
      (envVars none [("ACCESS_TOKEN_EXPIRE_MINUTES", v)]) "ACCESS_TOKEN_EXPIRE_MINUTES" =
      some v := rfl
  simp only [buildSettings, hraw, h]
  rfl

/-- Witness for C6 at the integer field with value "45". -/
theorem C6_single_override_frame_witness :
    buildSettings noKwargs none [("ACCESS_TOKEN_EXPIRE_MINUTES", "45")] =
      .ok { defaultSettings with ACCESS_TOKEN_EXPIRE_MINUTES := 45 } :=
  C6_single_override_frame.2.2.2.2 "45" 45 (by decide)

/-- C7: construction is deterministic — two constructions from the same
environment state (same kwargs, env file and process environment) that
succeed yield field-wise equal records. -/
theorem C7_deterministic (kw : Kwargs) (envFile : Option Env) (environ : Env)
    (s₁ s₂ : Settings)
    (h₁ : buildSettings kw envFile environ = .ok s₁)
    (h₂ : buildSettings kw envFile environ = .ok s₂) :
    s₁.PROJECT_NAME = s₂.PROJECT_NAME ∧ s₁.DATABASE_URL = s₂.DATABASE_URL ∧
    s₁.JWT_SECRET_KEY = s₂.JWT_SECRET_KEY ∧ s₁.JWT_ALGORITHM = s₂.JWT_ALGORITHM ∧
    s₁.ACCESS_TOKEN_EXPIRE_MINUTES = s₂.ACCESS_TOKEN_EXPIRE_MINUTES ∧ s₁ = s₂ := by
  rw [h₁] at h₂
  injection h₂ with h
  subst h
  exact ⟨rfl, rfl, rfl, rfl, rfl, rfl⟩

/-- Witness for C7 at the empty environment, where both constructions give
the default record. -/
theorem C7_deterministic_witness :
    defaultSettings.PROJECT_NAME = defaultSettings.PROJECT_NAME ∧
    defaultSettings.DATABASE_URL = defaultSettings.DATABASE_URL ∧
    defaultSettings.JWT_SECRET_KEY = defaultSettings.JWT_SECRET_KEY ∧
    defaultSettings.JWT_ALGORITHM = defaultSettings.JWT_ALGORITHM ∧
    defaultSettings.ACCESS_TOKEN_EXPIRE_MINUTES = defaultSettings.ACCESS_TOKEN_EXPIRE_MINUTES ∧
    defaultSettings = defaultSettings :=
  C7_deterministic noKwargs none [] defaultSettings defaultSettings (by decide) (by decide)

/-- C8 counterexample: attribute assignment, which the object exposes
(pydantic v1 default `allow_mutation = True`), does mutate a field — assigning
PROJECT_NAME on the default record yields a record different from the record
as constructed. -/
theorem C8_mutation_counterexample :
    setPROJECT_NAME defaultSettings "x" ≠ defaultSettings := by
  decide

/-- C8 (amended): the object does not enforce immutability: each exposed
attribute assignment replaces exactly its own field and leaves the other four
unchanged, so the record reads back as constructed only as long as no
assignment is performed. -/
theorem C8_assignment_mutates (s : Settings) (v : String) (n : Int) :
    ((setPROJECT_NAME s v).PROJECT_NAME = v ∧
      (setPROJECT_NAME s v).DATABASE_URL = s.DATABASE_URL ∧
      (setPROJECT_NAME s v).JWT_SECRET_KEY = s.JWT_SECRET_KEY ∧
      (setPROJECT_NAME s v).JWT_ALGORITHM = s.JWT_ALGORITHM ∧
      (setPROJECT_NAME s v).ACCESS_TOKEN_EXPIRE_MINUTES = s.ACCESS_TOKEN_EXPIRE_MINUTES) ∧
    ((setDATABASE_URL s v).DATABASE_URL = v ∧
      (setDATABASE_URL s v).PROJECT_NAME = s.PROJECT_NAME ∧
      (setDATABASE_URL s v).JWT_SECRET_KEY = s.JWT_SECRET_KEY ∧
      (setDATABASE_URL s v).JWT_ALGORITHM = s.JWT_ALGORITHM ∧
      (setDATABASE_URL s v).ACCESS_TOKEN_EXPIRE_MINUTES = s.ACCESS_TOKEN_EXPIRE_MINUTES) ∧
    ((setJWT_SECRET_KEY s v).JWT_SECRET_KEY = v ∧
      (setJWT_SECRET_KEY s v).PROJECT_NAME = s.PROJECT_NAME ∧
      (setJWT_SECRET_KEY s v).DATABASE_URL = s.DATABASE_URL ∧
      (setJWT_SECRET_KEY s v).JWT_ALGORITHM = s.JWT_ALGORITHM ∧
      (setJWT_SECRET_KEY s v).ACCESS_TOKEN_EXPIRE_MINUTES = s.ACCESS_TOKEN_EXPIRE_MINUTES) ∧
    ((setJWT_ALGORITHM s v).JWT_ALGORITHM = v ∧
      (setJWT_ALGORITHM s v).PROJECT_NAME = s.PROJECT_NAME ∧
      (setJWT_ALGORITHM s v).DATABASE_URL = s.DATABASE_URL ∧
      (setJWT_ALGORITHM s v).JWT_SECRET_KEY = s.JWT_SECRET_KEY ∧
      (setJWT_ALGORITHM s v).ACCESS_TOKEN_EXPIRE_MINUTES = s.ACCESS_TOKEN_EXPIRE_MINUTES) ∧
    ((setACCESS_TOKEN_EXPIRE_MINUTES s n).ACCESS_TOKEN_EXPIRE_MINUTES = n ∧
      (setACCESS_TOKEN_EXPIRE_MINUTES s n).PROJECT_NAME = s.PROJECT_NAME ∧
      (setACCESS_TOKEN_EXPIRE_MINUTES s n).DATABASE_URL = s.DATABASE_URL ∧
      (setACCESS_TOKEN_EXPIRE_MINUTES s n).JWT_SECRET_KEY = s.JWT_SECRET_KEY ∧
      (setACCESS_TOKEN_EXPIRE_MINUTES s n).JWT_ALGORITHM = s.JWT_ALGORITHM) :=
  ⟨⟨rfl, rfl, rfl, rfl, rfl⟩, ⟨rfl, rfl, rfl, rfl, rfl⟩, ⟨rfl, rfl, rfl, rfl, rfl⟩,
    ⟨rfl, rfl, rfl, rfl, rfl⟩, ⟨rfl, rfl, rfl, rfl, rfl⟩⟩

/-- C9 counterexample: a zero expiry and empty strings are accepted —
construction succeeds with values violating the claimed §3 constraints. -/
theorem C9_constraints_counterexample :
    buildSettings noKwargs none
        [("ACCESS_TOKEN_EXPIRE_MINUTES", "0"), ("PROJECT_NAME", ""),
          ("JWT_SECRET_KEY", "")] =
      .ok { PROJECT_NAME := "", DATABASE_URL := "sqlite:///./dev.db",
            JWT_SECRET_KEY := "", JWT_ALGORITHM := "HS256",
            ACCESS_TOKEN_EXPIRE_MINUTES := 0 } := by
  decide

/-- C9 (amended): construction validates only the integer coercion of the
expiry field; the positivity and non-emptiness constraints of §3 are not
checked, so any parsed integer — zero and negatives included — and any
strings — empty ones included — are accepted. -/
theorem C9_only_int_coercion_checked (v pn sk : String) (n : Int)
    (h : parsePyInt v = some n) :
    buildSettings noKwargs none
        [("ACCESS_TOKEN_EXPIRE_MINUTES", v), ("PROJECT_NAME", pn),
          ("JWT_SECRET_KEY", sk)] =
      .ok { PROJECT_NAME := pn, DATABASE_URL := "sqlite:///./dev.db",
            JWT_SECRET_KEY := sk, JWT_ALGORITHM := "HS256",
            ACCESS_TOKEN_EXPIRE_MINUTES := n } := by
  have hraw : rawValue noKwargs.ACCESS_TOKEN_EXPIRE_MINUTES
      (envVars none [("ACCESS_TOKEN_EXPIRE_MINUTES", v), ("PROJECT_NAME", pn),
        ("JWT_SECRET_KEY", sk)]) "ACCESS_TOKEN_EXPIRE_MINUTES" = some v := rfl
  simp only [buildSettings, hraw, h]
  rfl

/-- Witness for C9 at expiry "-5" and empty strings. -/
theorem C9_only_int_coercion_checked_witness :
    buildSettings noKwargs none
        [("ACCESS_TOKEN_EXPIRE_MINUTES", "-5"), ("PROJECT_NAME", ""),
          ("JWT_SECRET_KEY", "")] =
      .ok { PROJECT_NAME := "", DATABASE_URL := "sqlite:///./dev.db",
            JWT_SECRET_KEY := "", JWT_ALGORITHM := "HS256",
            ACCESS_TOKEN_EXPIRE_MINUTES := -5 } :=
  C9_only_int_coercion_checked "-5" "" "" (-5) (by decide)

/-- C10: key matching is case-insensitive — a process variable whose key
lower-cases to a field's (lower-cased) name overrides that field, leaving the
others at default. -/
theorem C10_case_insensitive_env :
    (∀ k v, lowerString k = "project_name" →
      buildSettings noKwargs none [(k, v)] =
        .ok { defaultSettings with PROJECT_NAME := v }) ∧
    (∀ k v, lowerString k = "database_url" →
      buildSettings noKwargs none [(k, v)] =
        .ok { defaultSettings with DATABASE_URL := v }) ∧
    (∀ k v, lowerString k = "jwt_secret_key" →
      buildSettings noKwargs none [(k, v)] =
        .ok { defaultSettings with JWT_SECRET_KEY := v }) ∧
    (∀ k v, lowerString k = "jwt_algorithm" →
      buildSettings noKwargs none [(k, v)] =
        .ok { defaultSettings with JWT_ALGORITHM := v }) ∧
    (∀ k v n, lowerString k = "access_token_expire_minutes" → parsePyInt v = some n →
      buildSettings noKwargs none [(k, v)] =
        .ok { defaultSettings with ACCESS_TOKEN_EXPIRE_MINUTES := n }) := by
  refine ⟨fun k v h => ?_, fun k v h => ?_, fun k v h => ?_, fun k v h => ?_,
    fun k v n h hp => ?_⟩ <;>
    have hv : envVars none [(k, v)] = [(lowerString k, v)] := rfl <;>
    rw [h] at hv <;> simp only [buildSettings, hv] <;> try rfl
  have hraw : rawValue noKwargs.ACCESS_TOKEN_EXPIRE_MINUTES
      [("access_token_expire_minutes", v)] "ACCESS_TOKEN_EXPIRE_MINUTES" = some v := rfl
  simp only [hraw, hp]
  rfl

/-- Witness for C10: the all-lower-case key jwt_secret_key overrides the field
declared as JWT_SECRET_KEY. -/
theorem C10_case_insensitive_env_witness :
    buildSettings noKwargs none [("jwt_secret_key", "s")] =
      .ok { defaultSettings with JWT_SECRET_KEY := "s" } :=
  C10_case_insensitive_env.2.2.1 "jwt_secret_key" "s" (by decide)
